import Mathlib

/-!
Verification of the patent-analysis pipeline (src/app10.py, src/app11.py):
a shallow embedding of the repository's string processing, reply parsing,
stage gating, PDF-extraction control flow and Word-export logic, together
with theorems settling the specification claims.

External collaborators (the PDF library, the LLM endpoint, `json.loads` /
`json.dumps`, python-docx) are modelled explicitly: the PDF library's
outcome is a parameter, `json.loads` is embedded as a JSON parser over
characters (covering objects, arrays, strings, integers, booleans and
null; floats, `\u` escapes and the rejection of raw control characters in
strings are outside the model, and none of the analysed inputs involve
them), and python-docx documents are lists of block elements.
-/

namespace PatentSpec

/-- Whitespace characters removed by Python `str.strip()` (ASCII subset;
the inputs analysed contain no further Unicode whitespace). -/
def pyWs : Char → Bool
  | ' ' | '\t' | '\n' | '\r' | '\x0b' | '\x0c' => true
  | _ => false

/-- Remove leading whitespace (the left half of `str.strip()`). -/
def stripL (l : List Char) : List Char := l.dropWhile pyWs

/-- Remove trailing whitespace (the right half of `str.strip()`). -/
def stripR : List Char → List Char
  | [] => []
  | c :: t =>
    match stripR t with
    | [] => if pyWs c then [] else [c]
    | r => c :: r

/-- Python `str.strip()` on a character list. -/
def strip (l : List Char) : List Char := stripR (stripL l)

/-- Python `str.strip()` on a `String`. -/
def pyStrip (s : String) : String := ⟨strip s.data⟩

/-- Python slice `l[: len l - n]`, used to model slices such as `[7:-3]`
(first `drop`, then cut the final `n` characters). -/
def dropLastN (n : Nat) (l : List Char) : List Char := l.take (l.length - n)

/-- Does `p` occur as a contiguous substring of the second argument? -/
def hasSub (p : List Char) : List Char → Bool
  | [] => p.isEmpty
  | c :: rest => p.isPrefixOf (c :: rest) || hasSub p rest

/-- Index of the first occurrence of `p` as a substring, if any
(the scan-from-the-left behaviour of `re.search`). -/
def findSub (p : List Char) : List Char → Option Nat
  | [] => if p.isEmpty then some 0 else none
  | c :: rest =>
    if p.isPrefixOf (c :: rest) then some 0
    else (findSub p rest).map (· + 1)

/-! ## JSON values and a model of `json.loads` -/

/-- JSON values, the shapes `json.loads` can return. -/
inductive Json where
  | null
  | bool (b : Bool)
  | num (n : Int)
  | str (s : String)
  | arr (elems : List Json)
  | obj (members : List (String × Json))

/-- Whitespace skipped between JSON tokens (per the JSON grammar used by
Python's `json` module). -/
def jsonWs : Char → Bool
  | ' ' | '\t' | '\n' | '\r' => true
  | _ => false

/-- Skip inter-token whitespace. -/
def skipWs (l : List Char) : List Char := l.dropWhile jsonWs

/-- The short JSON escapes as a lookup table, pairing the letter written
after the backslash with the character it denotes. -/
def escTable : List (Char × Char) :=
  [('"', '"'), ('\\', '\\'), ('/', '/'), ('n', '\n'), ('t', '\t'),
   ('r', '\r'), ('b', Char.ofNat 8), ('f', Char.ofNat 12)]

/-- Translate a JSON string escape character via the table. -/
def jsonEsc (c : Char) : Option Char :=
  (escTable.find? fun kv => kv.1 == c).map fun kv => kv.2

/-- Parse the body of a JSON string (the opening quote already consumed);
returns the decoded characters and the remainder after the closing quote. -/
def parseStringBody : List Char → Option (List Char × List Char)
  | [] => none
  | '"' :: rest => some ([], rest)
  | '\\' :: e :: rest =>
    (jsonEsc e).bind fun c =>
      (parseStringBody rest).map fun p => (c :: p.1, p.2)
  | c :: rest => (parseStringBody rest).map fun p => (c :: p.1, p.2)

/-- Fold decimal digits into a natural number. -/
def digitsToNat (ds : List Char) : Nat :=
  ds.foldl (fun a c => a * 10 + (c.toNat - 48)) 0

/-- Parse a nonempty run of decimal digits. -/
def parseNat (l : List Char) : Option (Nat × List Char) :=
  let ds := l.takeWhile (·.isDigit)
  if ds.isEmpty then none else some (digitsToNat ds, l.drop ds.length)

mutual

/-- Parse one JSON value (fuel-based recursion; fuel bounds nesting). -/
def parseVal : Nat → List Char → Option (Json × List Char)
  | 0, _ => none
  | Nat.succ fuel, l =>
    match skipWs l with
    | '"' :: rest => (parseStringBody rest).map fun p => (Json.str ⟨p.1⟩, p.2)
    | '\x7b' :: rest =>
      match skipWs rest with
      | '\x7d' :: r2 => some (Json.obj [], r2)
      | _ => (parseMembers fuel rest).map fun p => (Json.obj p.1, p.2)
    | '[' :: rest =>
      match skipWs rest with
      | ']' :: r2 => some (Json.arr [], r2)
      | _ => (parseElems fuel rest).map fun p => (Json.arr p.1, p.2)
    | 't' :: rest =>
      if "rue".data.isPrefixOf rest then some (Json.bool true, rest.drop 3) else none
    | 'f' :: rest =>
      if "alse".data.isPrefixOf rest then some (Json.bool false, rest.drop 4) else none
    | 'n' :: rest =>
      if "ull".data.isPrefixOf rest then some (Json.null, rest.drop 3) else none
    | '-' :: rest => (parseNat rest).map fun p => (Json.num (-(p.1 : Int)), p.2)
    | c :: rest =>
      if c.isDigit then (parseNat (c :: rest)).map fun p => (Json.num p.1, p.2)
      else none
    | [] => none

/-- Parse the members of a nonempty JSON object (after the opening brace). -/
def parseMembers : Nat → List Char → Option (List (String × Json) × List Char)
  | 0, _ => none
  | Nat.succ fuel, l =>
    match skipWs l with
    | '"' :: rest =>
      (parseStringBody rest).bind fun k =>
        match skipWs k.2 with
        | ':' :: r2 =>
          (parseVal fuel r2).bind fun v =>
            match skipWs v.2 with
            | ',' :: r4 =>
              (parseMembers fuel r4).map fun ms => ((⟨k.1⟩, v.1) :: ms.1, ms.2)
            | '\x7d' :: r4 => some ([(⟨k.1⟩, v.1)], r4)
            | _ => none
        | _ => none
    | _ => none

/-- Parse the elements of a nonempty JSON array (after the opening bracket). -/
def parseElems : Nat → List Char → Option (List Json × List Char)
  | 0, _ => none
  | Nat.succ fuel, l =>
    (parseVal fuel l).bind fun v =>
      match skipWs v.2 with
      | ',' :: r2 => (parseElems fuel r2).map fun es => (v.1 :: es.1, es.2)
      | ']' :: r2 => some ([v.1], r2)
      | _ => none

end

/-- Model of `json.loads` on a character list: parse one value and require
that nothing but whitespace remains (Python rejects trailing content). -/
def json_loads_l (l : List Char) : Option Json :=
  match parseVal (2 * l.length + 2) l with
  | some (j, rest) => if (skipWs rest).isEmpty then some j else none
  | none => none

/-! ## app11: Markdown fence stripping and the per-stage reply parsing

Every LLM stage of app11 postprocesses the raw reply the same way
(app11.py lines 123-142, 210-227, 272-289, 335-352, 413-423, 479-489):
`content = reply.strip()`; if it starts with three backticks (with or
without `json`) slice `[7:-3]` resp. `[3:-3]` and strip again; then
`json.loads`. -/

/-- The fence-stripping step of app11 applied to the already-stripped
reply content (app11.py lines 125-128 and their copies). -/
def fence_strip (content : List Char) : List Char :=
  if "```json".data.isPrefixOf content then strip (dropLastN 3 (content.drop 7))
  else if "```".data.isPrefixOf content then strip (dropLastN 3 (content.drop 3))
  else content

/-- The string handed to `json.loads` by every app11 stage: the raw reply
stripped, fence-stripped, and stripped again. -/
def stage_content (reply : String) : List Char := fence_strip (strip reply.data)

/-- Reply postprocessing of `check_for_conflicts` (app11.py lines 123-142):
`json.loads` of the fence-stripped reply; `None` on a parse failure. -/
def check_for_conflicts_parse (reply : String) : Option Json :=
  json_loads_l (stage_content reply)

/-- Reply postprocessing of `extract_figures_and_text` (app11.py lines
210-227): identical to `check_for_conflicts_parse`. -/
def extract_figures_and_text_parse (reply : String) : Option Json :=
  json_loads_l (stage_content reply)

/-- Reply postprocessing of `extract_details_from_filed_application`
(app11.py lines 272-289). -/
def extract_details_from_filed_application_parse (reply : String) : Option Json :=
  json_loads_l (stage_content reply)

/-- Reply postprocessing of `extract_and_modify_filed_application`
(app11.py lines 335-352). -/
def extract_and_modify_filed_application_parse (reply : String) : Option Json :=
  json_loads_l (stage_content reply)

/-- A Python value as it flows between the narrative stages and the Word
exporter: a `str`, `None`, or some other object (dict, list, int, bool)
which in particular has no `.strip` method. -/
inductive PyVal where
  | str (s : String)
  | pyNone
  | obj (j : Json)

/-- The Python value produced by `json.loads`: a JSON string becomes a
Python `str`, JSON `null` becomes `None`, everything else is a non-string
object. -/
def pyOfJson : Json → PyVal
  | .str s => .str s
  | .null => .pyNone
  | j => .obj j

/-- Reply postprocessing of `analyze_filed_application` (app11.py lines
413-423): try `json.loads` on the fence-stripped reply, and on a
`JSONDecodeError` return the fence-stripped reply text itself. -/
def analyze_filed_application_parse (reply : String) : PyVal :=
  match json_loads_l (stage_content reply) with
  | some j => pyOfJson j
  | none => .str ⟨stage_content reply⟩

/-- Reply postprocessing of `analyze_modified_application` (app11.py lines
479-489): identical fallback behaviour. -/
def analyze_modified_application_parse (reply : String) : PyVal :=
  match json_loads_l (stage_content reply) with
  | some j => pyOfJson j
  | none => .str ⟨stage_content reply⟩

/-! ## app10: labeled-section scan of `extract_figures_and_text`

app10.py lines 75-79: `re.search(r"FIG:(.*?)(?=TEXT:)", s, re.DOTALL)` and
`re.search(r"TEXT:(.*)", s, re.DOTALL)`, with explicit fallback strings
when a search fails.  `re.search` takes the leftmost match; the lazy group
with lookahead captures up to the nearest following `TEXT:`. -/

/-- Leftmost match of `FIG:(.*?)(?=TEXT:)` under DOTALL: the capture group
runs from just after the first `FIG:` that is followed (at or after the
end of the marker) by a `TEXT:` occurrence, up to the nearest such
occurrence.  If the first `FIG:` has no following `TEXT:`, no later one
does either, so the search fails. -/
def figMatch : List Char → Option (List Char)
  | [] => none
  | c :: rest =>
    if "FIG:".data.isPrefixOf (c :: rest) then
      match findSub "TEXT:".data ((c :: rest).drop 4) with
      | some j => some (((c :: rest).drop 4).take j)
      | none => none
    else figMatch rest

/-- Leftmost match of `TEXT:(.*)` under DOTALL: everything after the first
`TEXT:` marker. -/
def textMatch (l : List Char) : Option (List Char) :=
  (findSub "TEXT:".data l).map fun j => l.drop (j + 5)

/-- `fig_details` of app10.py line 78: the stripped capture group, or the
fallback string when the search failed. -/
def fig_details (conflict_results : String) : String :=
  match figMatch conflict_results.data with
  | some g => ⟨strip g⟩
  | none => "No figure details found."

/-- `text_details` of app10.py line 79. -/
def text_details (conflict_results : String) : String :=
  match textMatch conflict_results.data with
  | some g => ⟨strip g⟩
  | none => "No technical text found."

/-! ## Text extraction from PDFs

The PDF library is an external collaborator: its outcome — either the list
of page texts in page order, or a raised error — is the parameter. -/

/-- `extract_text_from_pdf` of app10.py lines 19-30: no `try`/`except`, so
a library error propagates to the caller unchanged; on success the page
texts are concatenated in page order by `full_text += page.get_text`. -/
def extract_text_from_pdf_app10 (openResult : Except String (List String)) :
    Except String String :=
  match openResult with
  | .error e => .error e
  | .ok pages => .ok (pages.foldl (· ++ ·) "")

/-- One entry of the `pages` list built by app11's extractor. -/
structure PageEntry where
  page_number : Nat
  text : String

/-- The `pages` list of the dictionary built by `extract_text_from_pdf` of
app11.py lines 26-37: page `page_num` (0-based loop index) is appended with
`page_number = page_num + 1`. -/
def app11_pages (pages : List String) : List PageEntry :=
  pages.enum.map fun p => ⟨p.1 + 1, p.2⟩

/-- Model of `json.dumps` for the values this program serializes, up to
insignificant whitespace (the exact `indent=2` layout is immaterial to
every property proved here). -/
def escapeJsonChar (c : Char) : List Char :=
  match (escTable.filter fun kv => kv.1 != '/').find? fun kv => kv.2 == c with
  | some kv => ['\\', kv.1]
  | none => [c]

/-- Render a JSON string literal. -/
def renderStr (s : String) : String :=
  ⟨'"' :: s.data.foldr (fun c acc => escapeJsonChar c ++ acc) ['"']⟩

mutual

/-- Render a JSON value (model of `json.dumps`, see `escapeJsonChar`). -/
def renderJson : Json → String
  | .null => "null"
  | .bool true => "true"
  | .bool false => "false"
  | .num n => toString n
  | .str s => renderStr s
  | .arr es => "[" ++ renderElems es ++ "]"
  | .obj ms => "\x7b" ++ renderMembers ms ++ "\x7d"

/-- Render array elements. -/
def renderElems : List Json → String
  | [] => ""
  | [x] => renderJson x
  | x :: xs => renderJson x ++ ", " ++ renderElems xs

/-- Render object members. -/
def renderMembers : List (String × Json) → String
  | [] => ""
  | [kv] => renderStr kv.1 ++ ": " ++ renderJson kv.2
  | kv :: xs => renderStr kv.1 ++ ": " ++ renderJson kv.2 ++ ", " ++ renderMembers xs

end

/-- `extract_text_from_pdf` of app11.py lines 23-40: the whole body is
inside `try`/`except`, and any library error is caught and turned into the
empty string; on success the page dictionary is serialized with
`json.dumps`. -/
def extract_text_from_pdf_app11 (openResult : Except String (List String)) : String :=
  match openResult with
  | .error _ => ""
  | .ok pages =>
    renderJson (Json.obj [("pages",
      Json.arr ((app11_pages pages).map fun p =>
        Json.obj [("page_number", Json.num p.page_number), ("text", Json.str p.text)]))])

/-! ## The Word exporter `save_analysis_to_word` (app11.py lines 494-541)

A python-docx document is modelled as the list of block elements added to
it; a run is a pair of its text and its bold flag.  Note that
`paragraph.add_run(part)` adds a run element even when `part` is the empty
string (as produced by `re.split` around a match at the start or end of
the line). -/

/-- One block element of the produced document. -/
inductive Block where
  | heading (level : Nat) (text : String)
  | bullet (text : String)
  | numbered (text : String)
  | para (runs : List (String × Bool))

/-- The document: the sequence of blocks added to it. -/
structure WordDoc where
  blocks : List Block

/-- The errors the exporter can raise: calling `.strip()` on a non-string
value raises `AttributeError`. -/
inductive PyError where
  | attributeError

/-- Python `"text".split('\n')`: split at every newline, keeping empty
fields (so the result always has one more field than there are newlines). -/
def splitNl : List Char → List (List Char)
  | [] => [[]]
  | '\n' :: rest => [] :: splitNl rest
  | c :: rest =>
    match splitNl rest with
    | [] => [[c]]
    | h :: t => (c :: h) :: t

/-- One step of `re.split(r'(\*\*.*?\*\*)', line)`: the leftmost
`**`-delimited span, returned as (text before it, the span itself
including its delimiters, text after it). -/
def boldFind (l : List Char) : Option (List Char × List Char × List Char) :=
  match findSub "**".data l with
  | none => none
  | some i =>
    match findSub "**".data (l.drop (i + 2)) with
    | none => none
    | some j =>
      some (l.take i, (l.drop i).take (j + 4), (l.drop (i + 2)).drop (j + 2))

/-- `re.split(r'(\*\*.*?\*\*)', line)`: alternating unmatched and matched
parts, empty fields included (fuel-based recursion; the fuel of
`boldSplit` always suffices). -/
def boldSplitAux : Nat → List Char → List (List Char)
  | 0, l => [l]
  | Nat.succ fuel, l =>
    match boldFind l with
    | none => [l]
    | some (pre, m, post) => pre :: m :: boldSplitAux fuel post

/-- `re.split(r'(\*\*.*?\*\*)', line)` with adequate fuel. -/
def boldSplit (l : List Char) : List (List Char) := boldSplitAux (l.length + 1) l

/-- The run added for one part of the split (app11.py lines 526-534): a
part that starts and ends with `**` becomes a bold run of its interior,
anything else (empty parts included) a plain run. -/
def runOfPart (part : List Char) : String × Bool :=
  if "**".data.isPrefixOf part && "**".data.isSuffixOf part then
    (⟨dropLastN 2 (part.drop 2)⟩, true)
  else (⟨part⟩, false)

/-- Does the line match `re.match(r'^\d+\.', line)`: one or more digits
followed by a dot, at the start? -/
def startsNumDot (l : List Char) : Bool :=
  match l.dropWhile (·.isDigit) with
  | '.' :: _ => !(l.takeWhile (·.isDigit)).isEmpty
  | _ => false

/-- Processing of one line of the analysis output (app11.py lines
505-534): strip, then dispatch on the heading/bullet/numbered prefixes,
otherwise build a paragraph of bold and plain runs. -/
def processLine (rawLine : List Char) : Block :=
  let line := strip rawLine
  if "## ".data.isPrefixOf line then .heading 2 ⟨line.drop 3⟩
  else if "### ".data.isPrefixOf line then .heading 3 ⟨line.drop 4⟩
  else if "#### ".data.isPrefixOf line then .heading 4 ⟨line.drop 5⟩
  else if "- ".data.isPrefixOf line then .bullet ⟨line.drop 2⟩
  else if startsNumDot line then .numbered ⟨line⟩
  else .para ((boldSplit line).map runOfPart)

/-- `save_analysis_to_word` (app11.py lines 494-541).  The argument is the
Python value stored by the pipeline: `None` or an empty string hit the
explicit error branch (`st.error`, return `None`, modelled `.ok none`); a
non-string object raises `AttributeError` at `analysis_output.strip()`;
otherwise the document is built line by line. -/
def save_analysis_to_word (analysis_output : PyVal) : Except PyError (Option WordDoc) :=
  match analysis_output with
  | .pyNone => .ok none
  | .obj _ => .error .attributeError
  | .str s =>
    if (strip s.data).isEmpty then .ok none
    else .ok (some ⟨Block.heading 1 "Filed Application Analysis Results" ::
      (splitNl s.data).map processLine⟩)

/-! ## The session-state machine of app11 (lines 542-726)

The gate-relevant session fields and the user-triggered step events.
`foundational_claim` and `cited_documents` are carried along as the code
sets them; `dict.get` is modelled total with the code's defaults (the code
only applies it to parsed reply objects). -/

/-- Python truthiness of a parsed JSON value (`if conflict_results_raw:`
etc.): empty dict/list/string, `0`, `False` and `None` are falsy. -/
def truthy : Json → Bool
  | .null => false
  | .bool b => b
  | .num n => n != 0
  | .str s => !s.data.isEmpty
  | .arr xs => !xs.isEmpty
  | .obj ms => !ms.isEmpty

/-- Python truthiness of a stage value (`if analysis_results:`). -/
def truthyPy : PyVal → Bool
  | .str s => !s.data.isEmpty
  | .pyNone => false
  | .obj j => truthy j

/-- `dict.get(key, default)` on a parsed reply object. -/
def jsonGet (j : Json) (key : String) (default : Json) : Json :=
  match j with
  | .obj ms =>
    match ms.find? (fun kv => kv.1 == key) with
    | some kv => kv.2
    | none => default
  | _ => default

/-- The session-state fields involved in the stage gates (app11.py lines
543-556). -/
structure SessionState where
  conflict_results : Option Json
  foundational_claim : Option Json
  cited_documents : Option Json
  figure_analysis : Option Json
  filed_application_analysis : Option PyVal
  pending_claims_analysis : Option PyVal

/-- The initial session state: every field `None` (app11.py lines 543-554). -/
def initState : SessionState := ⟨none, none, none, none, none, none⟩

/-- One user-triggered pipeline event, carrying the outcome of the stage's
LLM call(s): `step3` carries both the detail-extraction outcome and the
narrative-analysis outcome. -/
inductive Event where
  | step1 (result : Option Json)
  | step2 (result : Option Json)
  | step3 (details : Option Json) (analysis : Option PyVal)
  | step4 (result : Option PyVal)

/-- The effect of one event on the session state, with the gates exactly as
in the code: Step 2 runs only when `conflict_results is not None` (line
603), Step 3 only when `figure_analysis is not None` (line 626), Step 4
only when `filed_application_analysis is not None` (line 673); results are
stored only when truthy (lines 584-587, 617-618, 643-654, 696-697). -/
def applyEvent (s : SessionState) (e : Event) : SessionState :=
  match e with
  | .step1 r =>
    match r with
    | some j =>
      if truthy j then
        { s with conflict_results := some j,
                 foundational_claim := some (jsonGet j "foundational_claim" (.str "")),
                 cited_documents := some (jsonGet j "documents_referenced" (.arr [])) }
      else s
    | none => s
  | .step2 r =>
    if s.conflict_results.isSome then
      match r with
      | some j => if truthy j then { s with figure_analysis := some j } else s
      | none => s
    else s
  | .step3 d a =>
    if s.figure_analysis.isSome then
      match d with
      | some dj =>
        if truthy dj then
          let s1 := { s with filed_application_analysis := some (.str (renderJson dj)) }
          match a with
          | some av =>
            if truthyPy av then { s1 with filed_application_analysis := some av } else s1
          | none => s1
        else s
      | none => s
    else s
  | .step4 r =>
    if s.filed_application_analysis.isSome then
      match r with
      | some v => if truthyPy v then { s with pending_claims_analysis := some v } else s
      | none => s
    else s

/-- Run the session from the initial state through a sequence of events. -/
def runEvents (evs : List Event) : SessionState := evs.foldl applyEvent initState

/-- The Step 2 gate (app11.py line 603). -/
def step2Offered (s : SessionState) : Bool := s.conflict_results.isSome

/-- The Step 3 gate (app11.py line 626). -/
def step3Offered (s : SessionState) : Bool := s.figure_analysis.isSome

/-- The Step 4 gate (app11.py line 673). -/
def step4Offered (s : SessionState) : Bool := s.filed_application_analysis.isSome

/-! ## Concrete sample values used by the claim theorems -/

/-- The conflict object of the instructed output contract:
`foundational_claim: "X", documents_referenced: ["A"], figures: [], text: "Y"`. -/
def conflictSample : Json :=
  .obj [("foundational_claim", .str "X"), ("documents_referenced", .arr [.str "A"]),
        ("figures", .arr []), ("text", .str "Y")]

/-- The Report Exporter scenario input of the specification. -/
def c6input : String := "## Title\n- item one\n**bold** rest"

/-- The runs the exporter actually produces for the line `**bold** rest`. -/
def c6runs : List (String × Bool) := [("", false), ("bold", true), (" rest", false)]

/-- The document the exporter actually produces for `c6input`. -/
def c6doc : WordDoc :=
  ⟨[.heading 1 "Filed Application Analysis Results", .heading 2 "Title",
    .bullet "item one", .para c6runs]⟩

/-- A truthy parsed conflict object. -/
def sampleConflict : Json := .obj [("foundational_claim", .str "claim")]

/-- A truthy filed-application details object (the shape of
`extract_details_from_filed_application`'s output). -/
def sampleDetails : Json := .obj [("foundational_claim_details", .arr [])]

/-- A session run that completes every stage successfully. -/
def demoEvs : List Event :=
  [.step1 (some sampleConflict), .step2 (some sampleConflict),
   .step3 (some sampleConflict) (some (.str "analysis")), .step4 (some (.str "pending"))]

/-- A parsed narrative-analysis reply that is a JSON object (hence a
non-string Python value). -/
def c10json : Json := .obj [("x", .str "y")]

/-- The gate invariant: a stored stage result implies its predecessor's
result is stored. -/
def GateInv (s : SessionState) : Prop :=
  (s.figure_analysis.isSome = true → s.conflict_results.isSome = true) ∧
  (s.filed_application_analysis.isSome = true → s.figure_analysis.isSome = true) ∧
  (s.pending_claims_analysis.isSome = true → s.filed_application_analysis.isSome = true)

/-! ## Helper lemmas -/

theorem dropWhile_len_le (p : Char → Bool) (l : List Char) :
    (l.dropWhile p).length ≤ l.length := by
  induction l with
  | nil => simp
  | cons c t ih =>
    cases h : p c
    · simp [List.dropWhile_cons, h]
    · simp only [List.dropWhile_cons, h, if_true]
      exact Nat.le_succ_of_le ih

theorem dropWhile_idem (p : Char → Bool) (l : List Char) :
    (l.dropWhile p).dropWhile p = l.dropWhile p := by
  induction l with
  | nil => simp
  | cons c t ih =>
    cases h : p c
    · simp [List.dropWhile_cons, h]
    · simpa [List.dropWhile_cons, h] using ih

theorem head_false_of_dropWhile_fixed {p : Char → Bool} {c : Char} {t : List Char}
    (h : (c :: t).dropWhile p = c :: t) : p c = false := by
  cases hc : p c
  · rfl
  · exfalso
    simp only [List.dropWhile_cons, hc, if_true] at h
    have hl := dropWhile_len_le p t
    rw [h] at hl
    simp only [List.length_cons] at hl
    omega

theorem stripR_cons (c : Char) (t : List Char) :
    stripR (c :: t) = match stripR t with
      | [] => if pyWs c then [] else [c]
      | r => c :: r := rfl

theorem stripL_stripR_fixed {x : List Char} (hx : stripL x = x) :
    stripL (stripR x) = stripR x := by
  cases x with
  | nil => rfl
  | cons c t =>
    have hc : pyWs c = false := head_false_of_dropWhile_fixed hx
    rw [stripR_cons]
    cases h : stripR t with
    | nil => simp [stripL, List.dropWhile_cons, hc]
    | cons r rs => simp [stripL, List.dropWhile_cons, hc]

theorem stripR_idem (l : List Char) : stripR (stripR l) = stripR l := by
  induction l with
  | nil => rfl
  | cons c t ih =>
    rw [stripR_cons]
    cases h : stripR t with
    | nil =>
      cases hc : pyWs c <;> simp [hc, stripR_cons, stripR]
    | cons r rs =>
      have ih2 : stripR (r :: rs) = r :: rs := by rw [← h, ih, h]
      rw [stripR_cons, ih2]

theorem strip_idem (l : List Char) : strip (strip l) = strip l := by
  unfold strip
  have h1 : stripL (stripL l) = stripL l := dropWhile_idem pyWs l
  have h2 : stripL (stripR (stripL l)) = stripR (stripL l) := stripL_stripR_fixed h1
  rw [h2, stripR_idem]

theorem findSub_eq_none {p : List Char} :
    ∀ {l : List Char}, hasSub p l = false → findSub p l = none := by
  intro l h
  induction l with
  | nil =>
    simp only [hasSub] at h
    simp [findSub, h]
  | cons c t ih =>
    simp only [hasSub, Bool.or_eq_false_iff] at h
    simp [findSub, h.1, ih h.2]

theorem figMatch_eq_none :
    ∀ {l : List Char}, hasSub "FIG:".data l = false → figMatch l = none := by
  intro l h
  induction l with
  | nil => rfl
  | cons c t ih =>
    simp only [hasSub, Bool.or_eq_false_iff] at h
    simp [figMatch, h.1, ih h.2]

theorem textMatch_eq_none {l : List Char} (h : hasSub "TEXT:".data l = false) :
    textMatch l = none := by
  unfold textMatch
  rw [findSub_eq_none h]
  rfl

theorem foldl_append_length (pages : List String) :
    ∀ acc : String,
      (pages.foldl (· ++ ·) acc).length = acc.length + (pages.map String.length).sum := by
  induction pages with
  | nil => intro acc; simp
  | cons p t ih =>
    intro acc
    rw [List.foldl_cons, ih (acc ++ p), String.length_append, List.map_cons, List.sum_cons]
    omega

theorem enumFrom_map_fst_add_one (l : List String) :
    ∀ k : Nat, (List.enumFrom k l).map (fun p => p.1 + 1) = List.range' (k + 1) l.length := by
  induction l with
  | nil => intro k; rfl
  | cons a t ih =>
    intro k
    show (k + 1) :: (List.enumFrom (k + 1) t).map (fun p => p.1 + 1) =
      List.range' (k + 1) (t.length + 1)
    rw [ih (k + 1)]
    rfl

theorem gateInv_init : GateInv initState := by
  refine ⟨?_, ?_, ?_⟩ <;> intro h <;> simp [initState] at h

theorem gateInv_apply {s : SessionState} (e : Event) (h : GateInv s) :
    GateInv (applyEvent s e) := by
  obtain ⟨h1, h2, h3⟩ := h
  cases e <;> simp only [applyEvent] <;> (repeat' split) <;>
    first
      | exact ⟨h1, h2, h3⟩
      | (refine ⟨?_, ?_, ?_⟩ <;> intro hg <;> simp_all [GateInv])

theorem gateInv_run (evs : List Event) :
    ∀ s : SessionState, GateInv s → GateInv (evs.foldl applyEvent s) := by
  induction evs with
  | nil => intro s h; exact h
  | cons e t ih => intro s h; exact ih _ (gateInv_apply e h)

/-! ## Claim theorems -/

set_option maxRecDepth 100000

/-- Claim C1, counterexample: a reply whose fenced, well-formed conflict
JSON is preceded by extraneous prose is NOT parsed by the JSON-strategy
parser of app11 — `content.strip()` removes only whitespace, the
`startswith` fence check then fails, and `json.loads` rejects the prose —
so `check_for_conflicts` returns the failure value `None`, contradicting
the claim that extraneous prose before the fence is tolerated. -/
theorem c1_counterexample :
    check_for_conflicts_parse
      "Here is the requested analysis:\n```json\n\x7b\"foundational_claim\":\"X\",\"documents_referenced\":[\"A\"],\"figures\":[],\"text\":\"Y\"\x7d\n```" =
      none := rfl

/-- Claim C1, amended: the JSON-strategy parsers of app11 (all four
structured stages postprocess the reply identically) tolerate only leading
and trailing whitespace around the fenced JSON — parsing is invariant
under `str.strip` of the reply, and a fence-wrapped conflict object
surrounded by nothing but whitespace still parses — but extraneous
non-whitespace prose before the fence makes the stage fail. -/
theorem c1_amended :
    (∀ reply : String,
      check_for_conflicts_parse reply = check_for_conflicts_parse (pyStrip reply)) ∧
    (∀ reply : String,
      extract_figures_and_text_parse reply = check_for_conflicts_parse reply) ∧
    (∀ reply : String,
      extract_details_from_filed_application_parse reply = check_for_conflicts_parse reply) ∧
    (∀ reply : String,
      extract_and_modify_filed_application_parse reply = check_for_conflicts_parse reply) ∧
    check_for_conflicts_parse
      "  \n```json\n\x7b\"foundational_claim\":\"X\",\"documents_referenced\":[\"A\"],\"figures\":[],\"text\":\"Y\"\x7d\n```  \n" =
      some conflictSample := by
  refine ⟨?_, fun _ => rfl, fun _ => rfl, fun _ => rfl, rfl⟩
  intro reply
  show json_loads_l (fence_strip (strip reply.data)) =
    json_loads_l (fence_strip (strip (String.mk (strip reply.data)).data))
  rw [show (String.mk (strip reply.data)).data = strip reply.data from rfl, strip_idem]

/-- Claim C2: the fence-wrapped conflict object round-trips — the reply
consisting exactly of the fenced JSON parses to the object with
`foundational_claim = "X"`, `documents_referenced = ["A"]`, `figures = []`
and `text = "Y"`, fences stripped. -/
theorem c2_roundtrip :
    check_for_conflicts_parse
      "```json\n\x7b\"foundational_claim\":\"X\",\"documents_referenced\":[\"A\"],\"figures\":[],\"text\":\"Y\"\x7d\n```" =
      some conflictSample := rfl

/-- Claim C3, counterexample: app10's `extract_text_from_pdf` has no
`try`/`except`, so a raised library error propagates past its boundary to
the caller unchanged, contradicting the claim that both variants report
failure as an empty result or error value. -/
theorem c3_counterexample :
    extract_text_from_pdf_app10 (.error "cannot open broken.pdf") =
      .error "cannot open broken.pdf" := rfl

/-- Claim C3, amended: only app11's `extract_text_from_pdf` catches the
library error and reports failure as the empty string; app10's variant
propagates every library error to its caller. -/
theorem c3_amended :
    (∀ e : String, extract_text_from_pdf_app11 (.error e) = "") ∧
    (∀ e : String, extract_text_from_pdf_app10 (.error e) = .error e) :=
  ⟨fun _ => rfl, fun _ => rfl⟩

/-- Claim C4: when the fence-stripped reply fails to parse as JSON, the
narrative stages (`analyze_filed_application`, `analyze_modified_application`)
return the fence-stripped raw reply text as an unstructured result, while
every structured stage (`check_for_conflicts`, `extract_figures_and_text`,
`extract_details_from_filed_application`,
`extract_and_modify_filed_application`) returns the failure value `None`. -/
theorem c4_parse_failure (reply : String)
    (h : json_loads_l (stage_content reply) = none) :
    check_for_conflicts_parse reply = none ∧
    extract_figures_and_text_parse reply = none ∧
    extract_details_from_filed_application_parse reply = none ∧
    extract_and_modify_filed_application_parse reply = none ∧
    analyze_filed_application_parse reply = .str ⟨stage_content reply⟩ ∧
    analyze_modified_application_parse reply = .str ⟨stage_content reply⟩ := by
  refine ⟨h, h, h, h, ?_, ?_⟩
  · unfold analyze_filed_application_parse
    rw [h]
  · unfold analyze_modified_application_parse
    rw [h]

/-- Witness for C4 at the unparseable reply `"not json"`. -/
theorem c4_witness :
    check_for_conflicts_parse "not json" = none ∧
    extract_figures_and_text_parse "not json" = none ∧
    extract_details_from_filed_application_parse "not json" = none ∧
    extract_and_modify_filed_application_parse "not json" = none ∧
    analyze_filed_application_parse "not json" = .str "not json" ∧
    analyze_modified_application_parse "not json" = .str "not json" :=
  c4_parse_failure "not json" rfl

/-- Claim C5: in every reachable session state, a stage is offered only
when all of its predecessor stages hold a stored (present, non-failed)
result — Step 2 only with `conflict_results` present, Step 3 only with
`figure_analysis` (and hence `conflict_results`) present, Step 4 only with
`filed_application_analysis` (and hence both earlier results) present. -/
theorem c5_stage_gating (evs : List Event) :
    (step2Offered (runEvents evs) = true →
      (runEvents evs).conflict_results.isSome = true) ∧
    (step3Offered (runEvents evs) = true →
      (runEvents evs).figure_analysis.isSome = true ∧
      (runEvents evs).conflict_results.isSome = true) ∧
    (step4Offered (runEvents evs) = true →
      (runEvents evs).filed_application_analysis.isSome = true ∧
      (runEvents evs).figure_analysis.isSome = true ∧
      (runEvents evs).conflict_results.isSome = true) := by
  obtain ⟨h1, h2, h3⟩ := gateInv_run evs initState gateInv_init
  exact ⟨fun hg => hg, fun hg => ⟨hg, h1 hg⟩, fun hg => ⟨hg, h2 hg, h1 (h2 hg)⟩⟩

/-- Witness for C5 on a session run that completes all four stages. -/
theorem c5_witness :
    (runEvents demoEvs).filed_application_analysis.isSome = true ∧
    (runEvents demoEvs).figure_analysis.isSome = true ∧
    (runEvents demoEvs).conflict_results.isSome = true :=
  (c5_stage_gating demoEvs).2.2 rfl

/-- Claim C6, counterexample: on the scenario input the exporter produces
the level-2 heading `Title` and the bullet `item one` as claimed, but the
paragraph built for `**bold** rest` does NOT have the bold `bold` run
first: `re.split` yields a leading empty unmatched part and
`paragraph.add_run` adds it as an (empty, non-bold) run, so the
paragraph's first run is the empty plain run. -/
theorem c6_counterexample :
    save_analysis_to_word (.str c6input) = .ok (some c6doc) ∧
    c6runs.head? = some ("", false) ∧
    (("" : String), false) ≠ (("bold" : String), true) :=
  ⟨rfl, rfl, by decide⟩

/-- Claim C6, amended: the exporter produces exactly one level-2 heading
`Title`, one bullet paragraph `item one`, and one paragraph whose runs are
an empty plain run (an artifact of splitting around a match at the start
of the line), then the bold run `bold`, then the plain run ` rest` — so
the first non-empty run is the bold `bold` followed by plain ` rest`. -/
theorem c6_amended :
    save_analysis_to_word (.str c6input) = .ok (some c6doc) ∧
    c6doc.blocks = [.heading 1 "Filed Application Analysis Results",
      .heading 2 "Title", .bullet "item one", .para c6runs] ∧
    c6runs.filter (fun r => !r.1.isEmpty) = [("bold", true), (" rest", false)] :=
  ⟨rfl, rfl, by decide⟩

/-- Claim C7: app10's labeled-section scan substitutes the explicit
fallback strings whenever the corresponding marker is absent, and parsing
its own FIG fallback string (which contains no markers) yields the FIG
fallback unchanged. -/
theorem c7_fallback_idempotent :
    fig_details "No figure details found." = "No figure details found." ∧
    (∀ s : String, hasSub "FIG:".data s.data = false →
      fig_details s = "No figure details found.") ∧
    (∀ s : String, hasSub "TEXT:".data s.data = false →
      text_details s = "No technical text found.") := by
  refine ⟨rfl, ?_, ?_⟩
  · intro s h
    unfold fig_details
    rw [figMatch_eq_none h]
  · intro s h
    unfold text_details
    rw [textMatch_eq_none h]

/-- Witness for C7 at the marker-free string `"hello"`. -/
theorem c7_witness :
    fig_details "hello" = "No figure details found." ∧
    text_details "hello" = "No technical text found." :=
  ⟨c7_fallback_idempotent.2.1 "hello" rfl, c7_fallback_idempotent.2.2 "hello" rfl⟩

/-- Claim C8: for every page list, app10's extractor concatenates the page
texts in page order and the result's length is the sum of the page-text
lengths, and app11's extractor tags page `k` (0-based) with the 1-based
page number `k + 1`, in ascending order, with the page texts unchanged. -/
theorem c8_page_order (pages : List String) :
    extract_text_from_pdf_app10 (.ok pages) = .ok (pages.foldl (· ++ ·) "") ∧
    (pages.foldl (· ++ ·) "").length = (pages.map String.length).sum ∧
    (app11_pages pages).map PageEntry.page_number = List.range' 1 pages.length ∧
    (app11_pages pages).map PageEntry.text = pages := by
  refine ⟨rfl, by simpa using foldl_append_length pages "", ?_, ?_⟩
  · show ((List.enumFrom 0 pages).map fun p => (⟨p.1 + 1, p.2⟩ : PageEntry)).map
      PageEntry.page_number = List.range' 1 pages.length
    rw [List.map_map]
    exact enumFrom_map_fst_add_one pages 0
  · show ((List.enumFrom 0 pages).map fun p => (⟨p.1 + 1, p.2⟩ : PageEntry)).map
      PageEntry.text = pages
    rw [List.map_map]
    exact List.enumFrom_map_snd 0 pages

/-- Claim C9: whenever the stripped reply starts with a code fence, app11
slices `[7:-3]` (resp. `[3:-3]`) unconditionally, removing the final three
characters whether or not the reply ends with a closing fence; on a reply
that opens a fence but never closes it, three characters of genuine
content are discarded and the parse fails. -/
theorem c9_fence_slice (reply : String) :
    ("```json".data.isPrefixOf (strip reply.data) = true →
      stage_content reply = strip (dropLastN 3 ((strip reply.data).drop 7))) ∧
    ("```json".data.isPrefixOf (strip reply.data) = false →
      "```".data.isPrefixOf (strip reply.data) = true →
      stage_content reply = strip (dropLastN 3 ((strip reply.data).drop 3))) ∧
    stage_content "```json\n\x7b\"a\": \"b\"\x7d" = "\x7b\"a\": \"".data ∧
    check_for_conflicts_parse "```json\n\x7b\"a\": \"b\"\x7d" = none := by
  refine ⟨?_, ?_, rfl, rfl⟩
  · intro h
    unfold stage_content fence_strip
    simp [h]
  · intro h1 h2
    unfold stage_content fence_strip
    simp [h1, h2]

/-- Witness for C9 at a reply opening a `json` fence without closing it. -/
theorem c9_witness :
    stage_content "```json\n\x7b\"x\": \"yz\"\x7d" =
      strip (dropLastN 3 ((strip "```json\n\x7b\"x\": \"yz\"\x7d".data).drop 7)) :=
  (c9_fence_slice "```json\n\x7b\"x\": \"yz\"\x7d").1 rfl

/-- Claim C10: when a narrative-analysis reply parses as a JSON object,
the stage returns a non-string Python value; such a value is stored into
`filed_application_analysis` by Step 3, and passing it to
`save_analysis_to_word` raises `AttributeError` at
`analysis_output.strip()` instead of producing a document or reaching the
explicit missing/empty-input error branch, which only string (or `None`)
inputs can reach. -/
theorem c10_attribute_error (reply : String) (j : Json)
    (h : analyze_filed_application_parse reply = PyVal.obj j) :
    save_analysis_to_word (analyze_filed_application_parse reply) = .error .attributeError ∧
    (∀ s : SessionState, s.figure_analysis.isSome = true → truthy j = true →
      (applyEvent s (.step3 (some sampleDetails) (some (.obj j)))).filed_application_analysis =
        some (.obj j)) ∧
    (∀ s : String, save_analysis_to_word (PyVal.str s) ≠ .error .attributeError) ∧
    save_analysis_to_word PyVal.pyNone = .ok none := by
  refine ⟨by rw [h]; rfl, ?_, ?_, rfl⟩
  · intro s hs ht
    have ht2 : truthyPy (PyVal.obj j) = true := ht
    simp [applyEvent, hs, ht2, sampleDetails, truthy]
  · intro s
    have hval : save_analysis_to_word (PyVal.str s) =
        if (strip s.data).isEmpty then Except.ok none
        else Except.ok (some ⟨Block.heading 1 "Filed Application Analysis Results" ::
          (splitNl s.data).map processLine⟩) := rfl
    rw [hval]
    split
    · exact fun hc => Except.noConfusion hc
    · exact fun hc => Except.noConfusion hc

/-- Witness for C10 at the reply `"{\"x\": \"y\"}"`, which parses to a
JSON object. -/
theorem c10_witness :
    save_analysis_to_word (analyze_filed_application_parse "\x7b\"x\": \"y\"\x7d") =
      .error .attributeError :=
  (c10_attribute_error "\x7b\"x\": \"y\"\x7d" c10json rfl).1

end PatentSpec
